import Mathlib

/-!
Verification of the tool-calling agent core of the `starter_template` backend
(`src/modal_app/functions.py`, `src/modal_app/agent.py`) against its
natural-language specification.

Python values that flow through the tool layer (parsed JSON arguments, API
payloads, return values) are embedded as `PyValue`; Python exceptions as
`PyExc`; fallible Python code as `Except PyExc _`.  External collaborators
(the Google API services, the OpenAI conversation-turn provider, the wall
clock, MIME/base64 encoding from the standard library) are modelled as
explicit environment records, so every repository function is a pure Lean
function of its inputs and its environment.
-/

set_option maxHeartbeats 1000000

namespace ModalApp

/-- Embedded Python/JSON value: the values that appear as parsed tool
arguments, constructed request bodies and capability results. -/
inductive PyValue where
  | none
  | bool (b : Bool)
  | int (n : Int)
  | str (s : String)
  | list (xs : List PyValue)
  | dict (kvs : List (String × PyValue))

/-- Embedded Python exception: the exceptions the repository code can raise
(`KeyError` from `args[...]`, `IndexError` from `content[0]`, and plain
`Exception(msg)` / library errors carrying a message). -/
inductive PyExc where
  | keyError (key : String)
  | indexError
  | exception (msg : String)
deriving DecidableEq

/-- First binding of `key` in an association list; models lookup in a Python
dict built from parsed JSON (keys are unique in practice, and Python lookup
returns the single binding). -/
def lookupKey : List (String × PyValue) → String → Option PyValue
  | [], _ => Option.none
  | (k, v) :: rest, key => if k = key then Option.some v else lookupKey rest key

/-- Python `d[key]` on a dict: the value, or a raised `KeyError`.  On a
non-dict value Python raises `TypeError`. -/
def pyIndex : PyValue → String → Except PyExc PyValue
  | PyValue.dict kvs, key =>
    match lookupKey kvs key with
    | Option.some v => Except.ok v
    | Option.none => Except.error (PyExc.keyError key)
  | _, _ => Except.error (PyExc.exception "TypeError")

/-- Python `d.get(key, default)` on a dict; on a non-dict value the attribute
access raises `AttributeError`. -/
def pyGetD : PyValue → String → PyValue → Except PyExc PyValue
  | PyValue.dict kvs, key, dflt => Except.ok ((lookupKey kvs key).getD dflt)
  | _, _, _ => Except.error (PyExc.exception "AttributeError")

/-- Python `args[key]` on the parsed tool-argument bag. -/
def dictGet (args : List (String × PyValue)) (key : String) : Except PyExc PyValue :=
  match lookupKey args key with
  | Option.some v => Except.ok v
  | Option.none => Except.error (PyExc.keyError key)

/-- Python `args.get(key, default)` on the parsed tool-argument bag. -/
def dictGetD (args : List (String × PyValue)) (key : String) (dflt : PyValue) : PyValue :=
  (lookupKey args key).getD dflt

/-- Python truthiness of an embedded value (`if attendees`, `location or ...`). -/
def isTruthy : PyValue → Bool
  | PyValue.none => false
  | PyValue.bool b => b
  | PyValue.int n => n != 0
  | PyValue.str s => !s.isEmpty
  | PyValue.list xs => !xs.isEmpty
  | PyValue.dict kvs => !kvs.isEmpty

/-- Python iteration (`for x in v`): lists yield their elements, dicts their
keys, strings their one-character substrings; other values raise `TypeError`. -/
def asIterList : PyValue → Except PyExc (List PyValue)
  | PyValue.list xs => Except.ok xs
  | PyValue.dict kvs => Except.ok (kvs.map (fun kv => PyValue.str kv.1))
  | PyValue.str s => Except.ok (s.toList.map (fun c => PyValue.str c.toString))
  | _ => Except.error (PyExc.exception "TypeError")

/-- JSON string quoting as performed by `json.dumps`; escaping of special
characters is elided because no string the repository serializes contains
them. -/
def jsonQuote (s : String) : String :=
  "\"" ++ s ++ "\""

mutual

/-- `json.dumps` on an embedded value, with the default separators
`", "` and `": "` used by the repository (`json.dumps(result)`). -/
def json_dumps : PyValue → String
  | PyValue.none => "null"
  | PyValue.bool true => "true"
  | PyValue.bool false => "false"
  | PyValue.int n => toString n
  | PyValue.str s => jsonQuote s
  | PyValue.list xs => "[" ++ json_dumpsItems xs ++ "]"
  | PyValue.dict kvs => "\x7b" ++ json_dumpsPairs kvs ++ "\x7d"

/-- Comma-separated serialization of JSON array items. -/
def json_dumpsItems : List PyValue → String
  | [] => ""
  | [x] => json_dumps x
  | x :: y :: rest => json_dumps x ++ ", " ++ json_dumpsItems (y :: rest)

/-- Comma-separated serialization of JSON object entries. -/
def json_dumpsPairs : List (String × PyValue) → String
  | [] => ""
  | [kv] => jsonQuote kv.1 ++ ": " ++ json_dumps kv.2
  | kv :: kv2 :: rest => jsonQuote kv.1 ++ ": " ++ json_dumps kv.2 ++ ", " ++ json_dumpsPairs (kv2 :: rest)

end

/-- A row of the `google_tokens` table
(`access_token, refresh_token, token_expiry, updated_at`). -/
structure TokenRow where
  access_token : String
  refresh_token : String
  token_expiry : String
  updated_at : Nat
deriving DecidableEq

/-- The `google.oauth2.credentials.Credentials` object constructed by
`get_google_credentials`. -/
structure Credentials where
  token : String
  refresh_token : String
  token_uri : String
  client_id : Option String
  client_secret : Option String
deriving DecidableEq

/-- `SELECT ... ORDER BY updated_at DESC LIMIT 1` over the `google_tokens`
table: some row of maximal `updated_at`, or none when the table is empty. -/
def selectLatestToken : List TokenRow → Option TokenRow
  | [] => Option.none
  | r :: rest =>
    match selectLatestToken rest with
    | Option.none => Option.some r
    | Option.some best =>
      if best.updated_at > r.updated_at then Option.some best else Option.some r

/-- Environment of external collaborators consumed by `functions.py`: the
`google_tokens` table contents, the `GOOGLE_CLIENT_ID`/`GOOGLE_CLIENT_SECRET`
environment variables, the Google Calendar and Gmail service endpoints
(`build(...)...execute()` chains), the standard library MIME/base64 encoding
of an outgoing mail, and `datetime.datetime.utcnow().isoformat()`. -/
structure GoogleEnv where
  tokens : List TokenRow
  googleClientId : Option String
  googleClientSecret : Option String
  calendarInsert : Credentials → PyValue → Except PyExc PyValue
  calendarListEvents : Credentials → String → PyValue → Except PyExc PyValue
  calendarPatch : Credentials → PyValue → PyValue → Except PyExc PyValue
  gmailSend : Credentials → PyValue → Except PyExc PyValue
  gmailListMessages : Credentials → PyValue → Except PyExc PyValue
  gmailGetMessage : Credentials → PyValue → Except PyExc PyValue
  mimeRaw : PyValue → PyValue → PyValue → String
  utcnowIso : String

/-- `get_google_credentials`: reads the most recently updated row of the
`google_tokens` table and builds a `Credentials` object from it; raises
`Exception("No stored Google credentials found.")` when the table has no
rows. -/
def get_google_credentials (env : GoogleEnv) : Except PyExc Credentials :=
  match selectLatestToken env.tokens with
  | Option.some row =>
    Except.ok
      { token := row.access_token
        refresh_token := row.refresh_token
        token_uri := "https://oauth2.googleapis.com/token"
        client_id := env.googleClientId
        client_secret := env.googleClientSecret }
  | Option.none => Except.error (PyExc.exception "No stored Google credentials found.")

/-- The attendee list comprehension of `schedule_meeting`:
`[{"email": email} for email in attendees] if attendees else []`. -/
def attendeeDicts (attendees : PyValue) : Except PyExc PyValue :=
  if isTruthy attendees then do
    let xs ← asIterList attendees
    Except.ok (PyValue.list (xs.map (fun email => PyValue.dict [("email", email)])))
  else
    Except.ok (PyValue.list [])

/-- `schedule_meeting`: builds the event body exactly as the source does and
inserts it into the primary calendar via the external service. -/
def schedule_meeting (meeting_title start_time end_time attendees location : PyValue)
    (env : GoogleEnv) : Except PyExc PyValue := do
  let creds ← get_google_credentials env
  let attendeesVal ← attendeeDicts attendees
  let event := PyValue.dict
    [ ("summary", meeting_title)
    , ("location", if isTruthy location then location else PyValue.str "TBD")
    , ("description", PyValue.str "Scheduled by your virtual EA")
    , ("start", PyValue.dict [("dateTime", start_time), ("timeZone", PyValue.str "UTC")])
    , ("end", PyValue.dict [("dateTime", end_time), ("timeZone", PyValue.str "UTC")])
    , ("attendees", attendeesVal)
    , ("reminders", PyValue.dict [("useDefault", PyValue.bool true)]) ]
  env.calendarInsert creds event

/-- `send_email`: builds a MIME message (external standard-library encoding,
modelled by `env.mimeRaw body recipient subject`) and sends it via the Gmail
service. -/
def send_email (recipient subject body : PyValue) (env : GoogleEnv) : Except PyExc PyValue := do
  let creds ← get_google_credentials env
  let raw := env.mimeRaw body recipient subject
  env.gmailSend creds (PyValue.dict [("raw", PyValue.str raw)])

/-- The per-message body of the `read_emails` loop that scans the headers for
the first one named `Subject`; the subject defaults to `""`. -/
def findSubject : List PyValue → Except PyExc PyValue
  | [] => Except.ok (PyValue.str "")
  | h :: rest => do
    let nameVal ← pyIndex h "name"
    match nameVal with
    | PyValue.str s =>
      if s = "Subject" then pyIndex h "value" else findSubject rest
    | _ => findSubject rest

/-- The `for msg in messages` loop of `read_emails`: fetch each message,
extract subject and snippet, and accumulate the summaries in order. -/
def readEmailsLoop (creds : Credentials) (env : GoogleEnv) :
    List PyValue → Except PyExc (List PyValue)
  | [] => Except.ok []
  | msg :: rest => do
    let msgId ← pyIndex msg "id"
    let msgDetail ← env.gmailGetMessage creds msgId
    let payload ← pyGetD msgDetail "payload" (PyValue.dict [])
    let headers ← pyGetD payload "headers" (PyValue.list [])
    let headerList ← asIterList headers
    let subject ← findSubject headerList
    let snippet ← pyGetD msgDetail "snippet" (PyValue.str "")
    let restOut ← readEmailsLoop creds env rest
    Except.ok (PyValue.dict [("subject", subject), ("snippet", snippet)] :: restOut)

/-- `read_emails`: lists the unread inbox messages and returns a list of
subject/snippet summaries. -/
def read_emails (max_results : PyValue) (env : GoogleEnv) : Except PyExc PyValue := do
  let creds ← get_google_credentials env
  let response ← env.gmailListMessages creds max_results
  let messages ← pyGetD response "messages" (PyValue.list [])
  let msgList ← asIterList messages
  let emailList ← readEmailsLoop creds env msgList
  Except.ok (PyValue.list emailList)

/-- The `for event in events` loop of `read_calendar`: for each event compute
`event.get("start", \x7b\x7d).get("dateTime", event.get("start", \x7b\x7d).get("date"))`
and pair it with the summary (default "No Title"). -/
def readCalendarLoop : List PyValue → Except PyExc (List PyValue)
  | [] => Except.ok []
  | ev :: rest => do
    let s1 ← pyGetD ev "start" (PyValue.dict [])
    let s2 ← pyGetD ev "start" (PyValue.dict [])
    let dateVal ← pyGetD s2 "date" PyValue.none
    let startVal ← pyGetD s1 "dateTime" dateVal
    let summary ← pyGetD ev "summary" (PyValue.str "No Title")
    let restOut ← readCalendarLoop rest
    Except.ok (PyValue.dict [("summary", summary), ("start", startVal)] :: restOut)

/-- `read_calendar`: lists upcoming events from `utcnow().isoformat() + "Z"`
onwards and returns summary/start pairs. -/
def read_calendar (max_results : PyValue) (env : GoogleEnv) : Except PyExc PyValue := do
  let creds ← get_google_credentials env
  let nowStr := env.utcnowIso ++ "Z"
  let eventsResult ← env.calendarListEvents creds nowStr max_results
  let events ← pyGetD eventsResult "items" (PyValue.list [])
  let evList ← asIterList events
  let eventList ← readCalendarLoop evList
  Except.ok (PyValue.list eventList)

/-- The body-construction step of `edit_calendar`: the four
`if "..." in updates` membership checks; membership testing on a non-dict
raises `TypeError`. -/
def buildUpdates : PyValue → Except PyExc PyValue
  | PyValue.dict kvs =>
    let e1 := match lookupKey kvs "summary" with
      | Option.some v => [("summary", v)]
      | Option.none => []
    let e2 := match lookupKey kvs "start_time" with
      | Option.some v =>
        [("start", PyValue.dict [("dateTime", v), ("timeZone", PyValue.str "UTC")])]
      | Option.none => []
    let e3 := match lookupKey kvs "end_time" with
      | Option.some v =>
        [("end", PyValue.dict [("dateTime", v), ("timeZone", PyValue.str "UTC")])]
      | Option.none => []
    let e4 := match lookupKey kvs "location" with
      | Option.some v => [("location", v)]
      | Option.none => []
    Except.ok (PyValue.dict (e1 ++ e2 ++ e3 ++ e4))
  | _ => Except.error (PyExc.exception "TypeError")

/-- `edit_calendar`: builds the patch body from the present `updates` keys and
patches the event via the external service. -/
def edit_calendar (event_id updates : PyValue) (env : GoogleEnv) : Except PyExc PyValue := do
  let creds ← get_google_credentials env
  let event ← buildUpdates updates
  env.calendarPatch creds event_id event

/-- `run_function`: the name-dispatch chain of `functions.py`.  Required
arguments are read with `args[...]` (raising `KeyError` when absent, before
the tool body runs), optional ones with `args.get(...)`; an unrecognized name
falls through every branch and returns Python `None`. -/
def run_function (name : String) (args : List (String × PyValue)) (env : GoogleEnv) :
    Except PyExc PyValue :=
  if name = "schedule_meeting" then do
    let meeting_title ← dictGet args "meeting_title"
    let start_time ← dictGet args "start_time"
    let end_time ← dictGet args "end_time"
    let attendees := dictGetD args "attendees" PyValue.none
    let location := dictGetD args "location" PyValue.none
    schedule_meeting meeting_title start_time end_time attendees location env
  else if name = "send_email" then do
    let recipient ← dictGet args "recipient"
    let subject ← dictGet args "subject"
    let body ← dictGet args "body"
    send_email recipient subject body env
  else if name = "read_emails" then
    read_emails (dictGetD args "max_results" (PyValue.int 5)) env
  else if name = "read_calendar" then
    read_calendar (dictGetD args "max_results" (PyValue.int 10)) env
  else if name = "edit_calendar" then do
    let event_id ← dictGet args "event_id"
    let updates ← dictGet args "updates"
    edit_calendar event_id updates env
  else
    Except.ok PyValue.none

/-- One entry of the `functions` tool-metadata list: name, description and
the JSON parameter schema, kept as the exact dict from the source. -/
structure FunctionDef where
  name : String
  description : String
  parameters : PyValue

/-- The `functions` catalog of `functions.py`: the five tool definitions, with
their JSON schemas embedded verbatim. -/
def functions : List FunctionDef :=
  [ { name := "schedule_meeting"
    , description := "Schedule a meeting in Google Calendar."
    , parameters := PyValue.dict
        [ ("type", PyValue.str "object")
        , ("properties", PyValue.dict
            [ ("meeting_title", PyValue.dict
                [ ("type", PyValue.str "string")
                , ("description", PyValue.str "Title of the meeting") ])
            , ("start_time", PyValue.dict
                [ ("type", PyValue.str "string")
                , ("description", PyValue.str "Start time in ISO 8601 format") ])
            , ("end_time", PyValue.dict
                [ ("type", PyValue.str "string")
                , ("description", PyValue.str "End time in ISO 8601 format") ])
            , ("attendees", PyValue.dict
                [ ("type", PyValue.str "array")
                , ("items", PyValue.dict [("type", PyValue.str "string")])
                , ("description", PyValue.str "Optional list of attendee email addresses") ])
            , ("location", PyValue.dict
                [ ("type", PyValue.str "string")
                , ("description", PyValue.str "Optional meeting location") ]) ])
        , ("required", PyValue.list
            [PyValue.str "meeting_title", PyValue.str "start_time", PyValue.str "end_time"]) ] }
  , { name := "send_email"
    , description := "Send an email via the Gmail API."
    , parameters := PyValue.dict
        [ ("type", PyValue.str "object")
        , ("properties", PyValue.dict
            [ ("recipient", PyValue.dict
                [ ("type", PyValue.str "string")
                , ("description", PyValue.str "Recipient email address") ])
            , ("subject", PyValue.dict
                [ ("type", PyValue.str "string")
                , ("description", PyValue.str "Email subject") ])
            , ("body", PyValue.dict
                [ ("type", PyValue.str "string")
                , ("description", PyValue.str "Email body content") ]) ])
        , ("required", PyValue.list
            [PyValue.str "recipient", PyValue.str "subject", PyValue.str "body"]) ] }
  , { name := "read_emails"
    , description := "Read unread emails from the Gmail inbox."
    , parameters := PyValue.dict
        [ ("type", PyValue.str "object")
        , ("properties", PyValue.dict
            [ ("max_results", PyValue.dict
                [ ("type", PyValue.str "number")
                , ("description", PyValue.str "Maximum number of emails to return (default is 5)") ]) ])
        , ("required", PyValue.list []) ] }
  , { name := "read_calendar"
    , description := "Read upcoming events from the Google Calendar."
    , parameters := PyValue.dict
        [ ("type", PyValue.str "object")
        , ("properties", PyValue.dict
            [ ("max_results", PyValue.dict
                [ ("type", PyValue.str "number")
                , ("description", PyValue.str "Maximum number of events to return (default is 10)") ]) ])
        , ("required", PyValue.list []) ] }
  , { name := "edit_calendar"
    , description := "Edit an existing calendar event."
    , parameters := PyValue.dict
        [ ("type", PyValue.str "object")
        , ("properties", PyValue.dict
            [ ("event_id", PyValue.dict
                [ ("type", PyValue.str "string")
                , ("description", PyValue.str "The ID of the event to update") ])
            , ("updates", PyValue.dict
                [ ("type", PyValue.str "object")
                , ("properties", PyValue.dict
                    [ ("summary", PyValue.dict
                        [ ("type", PyValue.str "string")
                        , ("description", PyValue.str "New title for the event") ])
                    , ("start_time", PyValue.dict
                        [ ("type", PyValue.str "string")
                        , ("description", PyValue.str "New start time in ISO 8601 format") ])
                    , ("end_time", PyValue.dict
                        [ ("type", PyValue.str "string")
                        , ("description", PyValue.str "New end time in ISO 8601 format") ])
                    , ("location", PyValue.dict
                        [ ("type", PyValue.str "string")
                        , ("description", PyValue.str "New location for the event") ]) ])
                , ("required", PyValue.list []) ]) ])
        , ("required", PyValue.list [PyValue.str "event_id", PyValue.str "updates"]) ] }
  ]

/-- The tool names registered in the catalog. -/
def toolNames : List String :=
  functions.map FunctionDef.name

/-- The strings of a JSON string array (used to read a schema's `required`
list). -/
def pyStrings : PyValue → List String
  | PyValue.list xs =>
    xs.filterMap (fun v => match v with
      | PyValue.str s => Option.some s
      | _ => Option.none)
  | _ => []

/-- The schema-required argument names of a registered tool, read from the
catalog entry's `parameters.required`. -/
def requiredArgsOf (name : String) : List String :=
  match functions.find? (fun f => f.name == name) with
  | Option.some f =>
    match f.parameters with
    | PyValue.dict kvs =>
      match lookupKey kvs "required" with
      | Option.some v => pyStrings v
      | Option.none => []
    | _ => []
  | Option.none => []

/-- A row of the `agent_threads` table.  The repository sources contain no
`CREATE TABLE` for `agent_threads`; its `updated_at` column is modelled from
the spec's ConversationThread attributes (`created_at`/`updated_at`
timestamps) as a `Nat` timestamp filled in by the store on insertion. -/
structure ThreadRow where
  thread_id : String
  updated_at : Nat
deriving DecidableEq

/-- `SELECT thread_id FROM agent_threads ORDER BY updated_at DESC LIMIT 1`:
some row of maximal `updated_at`, or none when the table is empty. -/
def selectLatestThread : List ThreadRow → Option ThreadRow
  | [] => Option.none
  | r :: rest =>
    match selectLatestThread rest with
    | Option.none => Option.some r
    | Option.some best =>
      if best.updated_at > r.updated_at then Option.some best else Option.some r

/-- `get_or_create_thread` from `agent.py`, as a function of the persisted
`agent_threads` rows.  `freshId` models the id returned by
`openai.beta.threads.create()` and `now` the timestamp the store assigns to
the inserted row (the INSERT lists only `thread_id`; the column default comes
from the table schema, which is absent from the sources).  Returns the thread
id together with the table contents after the call. -/
def get_or_create_thread (store : List ThreadRow) (freshId : String) (now : Nat) :
    String × List ThreadRow :=
  match selectLatestThread store with
  | Option.some row => (row.thread_id, store)
  | Option.none => (freshId, store ++ [{ thread_id := freshId, updated_at := now }])

/-- One `tool_call` of a run's `required_action.submit_tool_outputs`:
the provider-assigned id, the function name, and the parsed arguments
(`json.loads(tool.function.arguments)` is modelled as the already-parsed
bag, the provider having produced well-formed JSON). -/
structure ToolCall where
  id : String
  name : String
  arguments : List (String × PyValue)

/-- One entry of the `tool_outputs` list submitted back to the provider:
`\x7b"tool_call_id": tool.id, "output": json.dumps(result)\x7d`. -/
structure ToolOutput where
  tool_call_id : String
  output : String
deriving DecidableEq

/-- A run object as consumed by `process_agent_message`: its id, its `status`
string, and the pending tool calls (empty unless the status is
`requires_action`). -/
structure Run where
  id : String
  status : String
  tool_calls : List ToolCall

/-- A thread message as consumed by the output-extraction step: its `role`
and the text values of its content parts (`content[i].text.value`). -/
structure Message where
  role : String
  content : List String
deriving DecidableEq

/-- The externally observable actions `process_agent_message` performs, in
order: assistant creation, user-message append, run polling, individual tool
executions, tool-output submission, and message listing. -/
inductive AgentEffect where
  | createAssistant
  | appendUserMessage (text : String)
  | pollRun
  | execTool (name : String)
  | submitOutputs (outputs : List ToolOutput)
  | fetchMessages
deriving DecidableEq

/-- Environment of external collaborators consumed by `agent.py`: the
persisted `agent_threads` rows with the data a thread creation would use, the
result of `runs.create_and_poll`, the result of
`runs.submit_tool_outputs_and_poll` as a function of its arguments, the
`messages.list(..., order="asc")` data, and the `functions.py` environment. -/
structure AgentEnv where
  threadStore : List ThreadRow
  freshThreadId : String
  threadNow : Nat
  createAndPoll : Run
  submitAndPoll : String → List ToolOutput → Run
  listMessages : List Message
  googleEnv : GoogleEnv

/-- The `for tool in run.required_action.submit_tool_outputs.tool_calls` loop
of `process_agent_message`: executes each call via `run_function` and appends
`\x7b"tool_call_id": tool.id, "output": json.dumps(result)\x7d`; an exception
raised by a tool propagates and aborts the loop.  Also records the execution
effects. -/
def runToolLoop (genv : GoogleEnv) :
    List ToolCall → Except PyExc (List ToolOutput) × List AgentEffect
  | [] => (Except.ok [], [])
  | t :: rest =>
    match run_function t.name t.arguments genv with
    | Except.error e => (Except.error e, [AgentEffect.execTool t.name])
    | Except.ok result =>
      let out : ToolOutput := { tool_call_id := t.id, output := json_dumps result }
      match runToolLoop genv rest with
      | (Except.error e, effs) => (Except.error e, AgentEffect.execTool t.name :: effs)
      | (Except.ok outs, effs) => (Except.ok (out :: outs), AgentEffect.execTool t.name :: effs)

/-- The tail of `process_agent_message` shared by both paths: on a
`"completed"` run it lists the thread messages and returns
`messages.data[-1].content[0].text.value` (or "No messages found in thread."
when the thread is empty; `content[0]` on an empty content list raises
`IndexError`); on any other status it returns the `"Run status: ..."`
string. -/
def finishRun (run : Run) (env : AgentEnv) (effs : List AgentEffect) :
    Except PyExc String × List AgentEffect :=
  if run.status = "completed" then
    let messages := env.listMessages
    let effs2 := effs ++ [AgentEffect.fetchMessages]
    match messages.getLast? with
    | Option.some lastMessage =>
      match lastMessage.content.head? with
      | Option.some txt => (Except.ok txt, effs2)
      | Option.none => (Except.error PyExc.indexError, effs2)
    | Option.none => (Except.ok "No messages found in thread.", effs2)
  else
    (Except.ok ("Run status: " ++ run.status), effs)

/-- `process_agent_message` from `agent.py`: resolve the thread, create the
assistant, append the user message, poll the run; on `requires_action`
execute every pending tool call and submit all outputs at once (or return
"No tool outputs generated." when there are none); then extract the final
answer.  Returns the answer (or the propagated exception) together with the
trace of external effects. -/
def process_agent_message (user_message : String) (env : AgentEnv) :
    Except PyExc String × List AgentEffect :=
  let threadRes := get_or_create_thread env.threadStore env.freshThreadId env.threadNow
  let _thread_id := threadRes.1
  let effs0 : List AgentEffect :=
    [AgentEffect.createAssistant, AgentEffect.appendUserMessage user_message,
     AgentEffect.pollRun]
  let run := env.createAndPoll
  if run.status = "requires_action" then
    match runToolLoop env.googleEnv run.tool_calls with
    | (Except.error e, effs) => (Except.error e, effs0 ++ effs)
    | (Except.ok tool_outputs, effs) =>
      if tool_outputs.isEmpty then
        (Except.ok "No tool outputs generated.", effs0 ++ effs)
      else
        let run2 := env.submitAndPoll run.id tool_outputs
        finishRun run2 env
          (effs0 ++ effs ++ [AgentEffect.submitOutputs tool_outputs, AgentEffect.pollRun])
  else
    finishRun run env effs0

/-- Whether an effect is a tool-output submission. -/
def isSubmitEffect : AgentEffect → Bool
  | AgentEffect.submitOutputs _ => true
  | _ => false

/-- Whether an effect is a run poll. -/
def isPollEffect : AgentEffect → Bool
  | AgentEffect.pollRun => true
  | _ => false

/-- Whether an effect is a thread-message fetch. -/
def isFetchEffect : AgentEffect → Bool
  | AgentEffect.fetchMessages => true
  | _ => false

/-- Whether an effect is a tool execution. -/
def isExecEffect : AgentEffect → Bool
  | AgentEffect.execTool _ => true
  | _ => false

/-- Number of tool-output submissions in an effect trace. -/
def countSubmits (effs : List AgentEffect) : Nat :=
  effs.countP isSubmitEffect

/-- Number of run polls in an effect trace. -/
def countPolls (effs : List AgentEffect) : Nat :=
  effs.countP isPollEffect

/-- Number of thread-message fetches in an effect trace. -/
def countFetches (effs : List AgentEffect) : Nat :=
  effs.countP isFetchEffect

/-- Number of tool executions in an effect trace. -/
def countExecs (effs : List AgentEffect) : Nat :=
  effs.countP isExecEffect

/-- A failure result in the sense of the spec's ToolResult data model: a
value the executor RETURNS (rather than raises) that is distinguishable from
the bare `None` payload, so that it can describe the failure to the model.
Being `ok` and different from `None` is a necessary condition for any
concrete failure-descriptor encoding. -/
def isFailureResultValue (r : Except PyExc PyValue) : Prop :=
  ∃ v, r = Except.ok v ∧ v ≠ PyValue.none

/-- The text of the most recent assistant-authored message of an ordered
message sequence, as the spec's output-extraction rule describes it. -/
def specLastAssistantText (messages : List Message) : Option String :=
  match (messages.filter (fun m => m.role == "assistant")).getLast? with
  | Option.some m => m.content.head?
  | Option.none => Option.none

/-- One decision-function call returned by the model provider to the
ApproachRouter: the chosen approach string and, for `generated_query`, the
model-authored query text. -/
structure DecisionCall where
  approach : String
  query_text : String

/-- The strategy executions the ApproachRouter can perform. -/
inductive RouterEffect where
  | searchExec (query : String)
  | queryExec (sql : String)
  | composeCall
deriving DecidableEq

/-- Outcome of one ApproachRouter resolution: an explicit "no decision
produced" result, an explicit "unrecognized approach" result, or a composed
answer. -/
inductive RouterOutcome where
  | noDecisionProduced
  | unrecognizedApproach (approach : String)
  | answered (answer : String)
deriving DecidableEq

/-- Environment of external collaborators consumed by the ApproachRouter: the
provider's decision-function calls for a question, the semantic-search
capability, the read-only structured-query capability, and the final
answer-composition turn. -/
structure RouterEnv where
  decisionCalls : String → List DecisionCall
  searchTopK : String → List String
  runReadOnlyQuery : String → Except String (List String)
  composeAnswer : String → List String → String

/-- Modelled from the spec: the ApproachRouter (spec sections 4.5 and 7) is
part of the repository but absent from the provided sources (no `/ask`
handler is present).  Per the spec: the provider is asked for exactly one
mandatory decision-function call; zero decision calls yield the terminal
`NoDecisionProduced` result with no strategy executed; an unknown approach
string yields the explicit `UnrecognizedApproach` result; `retrieval` feeds
the top-k semantic matches to the composition turn; `generated_query` runs
the model-authored query read-only and feeds back either its rows or, on
query failure, the failure text. -/
def approachRouter (question : String) (env : RouterEnv) :
    RouterOutcome × List RouterEffect :=
  match env.decisionCalls question with
  | [] => (RouterOutcome.noDecisionProduced, [])
  | d :: _ =>
    if d.approach = "retrieval" then
      let rows := env.searchTopK question
      (RouterOutcome.answered (env.composeAnswer question rows),
       [RouterEffect.searchExec question, RouterEffect.composeCall])
    else if d.approach = "generated_query" then
      match env.runReadOnlyQuery d.query_text with
      | Except.ok rows =>
        (RouterOutcome.answered (env.composeAnswer question rows),
         [RouterEffect.queryExec d.query_text, RouterEffect.composeCall])
      | Except.error msg =>
        (RouterOutcome.answered (env.composeAnswer question [msg]),
         [RouterEffect.queryExec d.query_text, RouterEffect.composeCall])
    else
      (RouterOutcome.unrecognizedApproach d.approach, [])

/-! ## Concrete environments used to instantiate the theorems -/

/-- A minimal `functions.py` environment: no stored Google tokens, no
configured client id/secret, and inert external services. -/
def baseGoogleEnv : GoogleEnv where
  tokens := []
  googleClientId := Option.none
  googleClientSecret := Option.none
  calendarInsert := fun _ _ => Except.ok PyValue.none
  calendarListEvents := fun _ _ _ => Except.ok (PyValue.dict [])
  calendarPatch := fun _ _ _ => Except.ok PyValue.none
  gmailSend := fun _ _ => Except.ok PyValue.none
  gmailListMessages := fun _ _ => Except.ok (PyValue.dict [])
  gmailGetMessage := fun _ _ => Except.ok (PyValue.dict [])
  mimeRaw := fun _ _ _ => ""
  utcnowIso := "2024-01-01T00:00:00"

/-- A minimal `agent.py` environment: empty thread store, a run that
completes immediately, and an empty thread. -/
def baseAgentEnv : AgentEnv where
  threadStore := []
  freshThreadId := "thread_1"
  threadNow := 1
  createAndPoll := { id := "run_1", status := "completed", tool_calls := [] }
  submitAndPoll := fun _ _ => { id := "run_2", status := "completed", tool_calls := [] }
  listMessages := []
  googleEnv := baseGoogleEnv

end ModalApp

namespace ModalApp

/-! ## Helper lemmas -/

/-- Bind on `Except` applied to a success, as produced by the `do` blocks of
the embedded Python. -/
theorem exbind_ok {α β : Type} (a : α) (f : α → Except PyExc β) :
    (Except.ok a >>= f) = f a := rfl

/-- Bind on `Except` applied to a raised exception: the exception
propagates. -/
theorem exbind_err {α β : Type} (e : PyExc) (f : α → Except PyExc β) :
    ((Except.error e : Except PyExc α) >>= f) = Except.error e := rfl

/-- `selectLatestThread` on a non-empty table returns a row of the table of
maximal `updated_at`. -/
theorem selectLatestThread_max (l : List ThreadRow) (hne : l ≠ []) :
    ∃ r, selectLatestThread l = Option.some r ∧ r ∈ l ∧
      ∀ r' ∈ l, r'.updated_at ≤ r.updated_at := by
  induction l with
  | nil => exact absurd rfl hne
  | cons r rest ih =>
    cases hrest : rest with
    | nil =>
      refine ⟨r, ?_, List.mem_cons_self r [], ?_⟩
      · simp [selectLatestThread]
      · intro r' hr'
        rw [List.mem_singleton] at hr'
        subst hr'
        exact Nat.le_refl _
    | cons r2 rest2 =>
      obtain ⟨b, hb, hbmem, hbmax⟩ := ih (by rw [hrest]; exact List.cons_ne_nil _ _)
      rw [← hrest]
      by_cases hgt : b.updated_at > r.updated_at
      · refine ⟨b, ?_, List.mem_cons_of_mem r hbmem, ?_⟩
        · unfold selectLatestThread
          rw [hb]
          simp [hgt]
        · intro r' hr'
          rcases List.mem_cons.mp hr' with h | h
          · subst h; exact Nat.le_of_lt hgt
          · exact hbmax r' h
      · refine ⟨r, ?_, List.mem_cons_self r rest, ?_⟩
        · unfold selectLatestThread
          rw [hb]
          simp [hgt]
        · intro r' hr'
          rcases List.mem_cons.mp hr' with h | h
          · subst h; exact Nat.le_refl _
          · exact Nat.le_trans (hbmax r' h) (Nat.le_of_not_lt hgt)

/-- `selectLatestThread` never returns `none` on a non-empty table. -/
theorem selectLatestThread_cons_isSome (r : ThreadRow) (rest : List ThreadRow) :
    (selectLatestThread (r :: rest)).isSome := by
  unfold selectLatestThread
  cases selectLatestThread rest with
  | none => rfl
  | some best =>
    by_cases h : best.updated_at > r.updated_at <;> simp [h]

/-! ## Claims -/

/-- C7: `get_or_create_thread` returns the thread id with the greatest
`updated_at` among the persisted rows whenever at least one row exists (and
leaves the table unchanged); when none exists it creates exactly one new
thread via the model provider, persists its id, and returns that id. -/
theorem C7_get_or_create_latest_or_fresh (store : List ThreadRow) (freshId : String) (now : Nat) :
    (store ≠ [] → ∃ r, r ∈ store ∧
      (get_or_create_thread store freshId now).1 = r.thread_id ∧
      (get_or_create_thread store freshId now).2 = store ∧
      ∀ r' ∈ store, r'.updated_at ≤ r.updated_at) ∧
    (store = [] → get_or_create_thread store freshId now =
      (freshId, [{ thread_id := freshId, updated_at := now }])) := by
  constructor
  · intro hne
    obtain ⟨r, hsel, hmem, hmax⟩ := selectLatestThread_max store hne
    refine ⟨r, hmem, ?_, ?_, hmax⟩
    · unfold get_or_create_thread
      rw [hsel]
    · unfold get_or_create_thread
      rw [hsel]
  · intro h
    subst h
    rfl

/-- Witness for C7: on a store containing two rows, the one with the greater
`updated_at` is returned and the store is untouched. -/
theorem C7_witness :
    ∃ r, r ∈ [({ thread_id := "t_old", updated_at := 1 } : ThreadRow),
              { thread_id := "t_new", updated_at := 5 }] ∧
      (get_or_create_thread
        [{ thread_id := "t_old", updated_at := 1 }, { thread_id := "t_new", updated_at := 5 }]
        "fresh" 9).1 = r.thread_id ∧
      (get_or_create_thread
        [{ thread_id := "t_old", updated_at := 1 }, { thread_id := "t_new", updated_at := 5 }]
        "fresh" 9).2 =
        [{ thread_id := "t_old", updated_at := 1 }, { thread_id := "t_new", updated_at := 5 }] ∧
      ∀ r' ∈ [({ thread_id := "t_old", updated_at := 1 } : ThreadRow),
              { thread_id := "t_new", updated_at := 5 }], r'.updated_at ≤ r.updated_at :=
  (C7_get_or_create_latest_or_fresh
    [{ thread_id := "t_old", updated_at := 1 }, { thread_id := "t_new", updated_at := 5 }]
    "fresh" 9).1 (by decide)

/-- C8: calling `get_or_create_thread` twice in a row on the same store
state, with no intervening delete, returns the identical thread id both
times, and the second call performs no insertion (the table is unchanged). -/
theorem C8_get_or_create_idempotent (store : List ThreadRow) (fid1 fid2 : String) (t1 t2 : Nat) :
    (get_or_create_thread ((get_or_create_thread store fid1 t1).2) fid2 t2).1
      = (get_or_create_thread store fid1 t1).1 ∧
    (get_or_create_thread ((get_or_create_thread store fid1 t1).2) fid2 t2).2
      = (get_or_create_thread store fid1 t1).2 := by
  cases store with
  | nil => exact ⟨rfl, rfl⟩
  | cons r rest =>
    obtain ⟨b, hb⟩ := Option.isSome_iff_exists.mp (selectLatestThread_cons_isSome r rest)
    have h1 : get_or_create_thread (r :: rest) fid1 t1 = (b.thread_id, r :: rest) := by
      unfold get_or_create_thread
      rw [hb]
    have h2 : get_or_create_thread (r :: rest) fid2 t2 = (b.thread_id, r :: rest) := by
      unfold get_or_create_thread
      rw [hb]
    constructor
    · rw [h1]
      show (get_or_create_thread (r :: rest) fid2 t2).1 = b.thread_id
      rw [h2]
    · rw [h1]
      show (get_or_create_thread (r :: rest) fid2 t2).2 = r :: rest
      rw [h2]

/-- C9 router environment: the provider returns zero decision-function
calls. -/
def routerEnvNoDecision : RouterEnv where
  decisionCalls := fun _ => []
  searchTopK := fun _ => []
  runReadOnlyQuery := fun _ => Except.error "not executed"
  composeAnswer := fun _ _ => ""

/-- C9: whenever the model provider returns zero decision-function calls, the
ApproachRouter surfaces the explicit terminal `NoDecisionProduced` result and
executes no strategy (it never proceeds with a guessed or default
approach). -/
theorem C9_no_decision_is_terminal (question : String) (env : RouterEnv)
    (h : env.decisionCalls question = []) :
    approachRouter question env = (RouterOutcome.noDecisionProduced, []) := by
  unfold approachRouter
  rw [h]

/-- Witness for C9 at a concrete environment whose provider produces no
decision call. -/
theorem C9_witness :
    approachRouter "which items sold best" routerEnvNoDecision =
      (RouterOutcome.noDecisionProduced, []) :=
  C9_no_decision_is_terminal "which items sold best" routerEnvNoDecision rfl

/-- C10 agent environment: the run requires action but lists zero tool
calls. -/
def envRequiresActionNoCalls : AgentEnv :=
  { baseAgentEnv with
    createAndPoll := { id := "run_1", status := "requires_action", tool_calls := [] } }

/-- C10: if the run ends in `requires_action` with zero tool invocations,
`process_agent_message` returns the fixed string "No tool outputs generated."
immediately: nothing is submitted, no further run is polled, no tool is
executed, and the thread's messages are never fetched. -/
theorem C10_requires_action_no_calls (m : String) (env : AgentEnv)
    (h1 : env.createAndPoll.status = "requires_action")
    (h2 : env.createAndPoll.tool_calls = []) :
    (process_agent_message m env).1 = Except.ok "No tool outputs generated." ∧
    countSubmits (process_agent_message m env).2 = 0 ∧
    countPolls (process_agent_message m env).2 = 1 ∧
    countFetches (process_agent_message m env).2 = 0 ∧
    countExecs (process_agent_message m env).2 = 0 := by
  have hproc : process_agent_message m env =
      (Except.ok "No tool outputs generated.",
        [AgentEffect.createAssistant, AgentEffect.appendUserMessage m, AgentEffect.pollRun]) := by
    simp only [process_agent_message]
    rw [h1, h2]
    simp [runToolLoop]
  rw [hproc]
  exact ⟨rfl, rfl, rfl, rfl, rfl⟩

/-- Witness for C10 at a concrete environment. -/
theorem C10_witness :
    (process_agent_message "hello" envRequiresActionNoCalls).1 =
      Except.ok "No tool outputs generated." ∧
    countSubmits (process_agent_message "hello" envRequiresActionNoCalls).2 = 0 ∧
    countPolls (process_agent_message "hello" envRequiresActionNoCalls).2 = 1 ∧
    countFetches (process_agent_message "hello" envRequiresActionNoCalls).2 = 0 ∧
    countExecs (process_agent_message "hello" envRequiresActionNoCalls).2 = 0 :=
  C10_requires_action_no_calls "hello" envRequiresActionNoCalls rfl rfl

/-- C1 counterexample: for the unregistered tool name "bogus" the executor
returns plain Python `None` — a bare success payload — not a `ToolNotFound`
failure result (no returned value distinguishable from the empty payload
carries the failure). -/
theorem C1_counterexample :
    run_function "bogus" [] baseGoogleEnv = Except.ok PyValue.none ∧
    ¬ isFailureResultValue (run_function "bogus" [] baseGoogleEnv) := by
  refine ⟨rfl, ?_⟩
  rintro ⟨v, hv, hne⟩
  rw [show run_function "bogus" [] baseGoogleEnv = Except.ok PyValue.none from rfl] at hv
  exact hne (Except.ok.inj hv).symm

/-- C1 as amended: for every tool name not in the catalog and every argument
bag, `run_function` returns Python `None` without raising (so the
unrecognized tool does not abort the other tool calls of the turn, whose loop
serializes this result as "null"). -/
theorem C1_unknown_tool_returns_none (name : String) (hname : name ∉ toolNames)
    (args : List (String × PyValue)) (env : GoogleEnv) :
    run_function name args env = Except.ok PyValue.none ∧
    json_dumps PyValue.none = "null" := by
  simp only [toolNames, functions, List.map, List.mem_cons, List.not_mem_nil, or_false] at hname
  push_neg at hname
  obtain ⟨h1, h2, h3, h4, h5⟩ := hname
  unfold run_function
  rw [if_neg h1, if_neg h2, if_neg h3, if_neg h4, if_neg h5]
  exact ⟨rfl, rfl⟩

/-- Witness for C1's amended claim at the unregistered name "bogus". -/
theorem C1_witness :
    run_function "bogus" [] baseGoogleEnv = Except.ok PyValue.none ∧
    json_dumps PyValue.none = "null" :=
  C1_unknown_tool_returns_none "bogus" (by decide) [] baseGoogleEnv

/-- Counting an effect kind distributes over trace concatenation. -/
theorem countP_trace_append (p : AgentEffect → Bool) (l1 l2 : List AgentEffect) :
    (l1 ++ l2).countP p = l1.countP p + l2.countP p :=
  List.countP_append p l1 l2

/-- A predicate that is false on tool-execution effects counts zero over the
execution segment of a trace. -/
theorem countP_execMap (p : AgentEffect → Bool)
    (h : ∀ s, p (AgentEffect.execTool s) = false) (calls : List ToolCall) :
    (calls.map (fun c => AgentEffect.execTool c.name)).countP p = 0 := by
  induction calls with
  | nil => rfl
  | cons c rest ih =>
    simp [List.countP_cons, h, ih]

/-- The execution segment of a trace contains one execution effect per tool
call. -/
theorem countExecs_execMap (calls : List ToolCall) :
    countExecs (calls.map (fun c => AgentEffect.execTool c.name)) = calls.length := by
  induction calls with
  | nil => rfl
  | cons c rest ih =>
    unfold countExecs at ih ⊢
    simp [List.countP_cons, isExecEffect, ih]

/-- `runToolLoop` on calls that all execute without raising: one output per
call, in order, each carrying the id of its own invocation, with one
execution effect per call and nothing else in the trace. -/
theorem runToolLoop_ok (genv : GoogleEnv) (calls : List ToolCall)
    (h : ∀ c ∈ calls, ∃ v, run_function c.name c.arguments genv = Except.ok v) :
    ∃ outs, runToolLoop genv calls =
        (Except.ok outs, calls.map (fun c => AgentEffect.execTool c.name)) ∧
      outs.length = calls.length ∧
      outs.map ToolOutput.tool_call_id = calls.map ToolCall.id := by
  induction calls with
  | nil => exact ⟨[], rfl, rfl, rfl⟩
  | cons c rest ih =>
    obtain ⟨v, hv⟩ := h c (List.mem_cons_self c rest)
    obtain ⟨outs, hloop, hlen, hids⟩ := ih (fun c' hc' => h c' (List.mem_cons_of_mem c hc'))
    refine ⟨{ tool_call_id := c.id, output := json_dumps v } :: outs, ?_, ?_, ?_⟩
    · unfold runToolLoop
      rw [hv, hloop]
      rfl
    · simp [hlen]
    · simp [hids]

/-- The trace appended by the shared run tail: nothing, or a single
message-fetch effect. -/
theorem finishRun_trace (run : Run) (env : AgentEnv) (effs : List AgentEffect) :
    (finishRun run env effs).2 = effs ∨
    (finishRun run env effs).2 = effs ++ [AgentEffect.fetchMessages] := by
  unfold finishRun
  split
  · right
    dsimp only
    split
    · split
      · rfl
      · rfl
    · rfl
  · left
    rfl

/-- C2: in a turn that requires tool output, whenever every requested
invocation executes to a value, the loop submits exactly as many outputs as
there were invocations, all in one submission, and the i-th output carries
the id of the i-th invocation, so no output is misattributed. -/
theorem C2_submission_parity (m : String) (env : AgentEnv)
    (hst : env.createAndPoll.status = "requires_action")
    (hne : env.createAndPoll.tool_calls ≠ [])
    (hok : ∀ c ∈ env.createAndPoll.tool_calls,
      ∃ v, run_function c.name c.arguments env.googleEnv = Except.ok v) :
    ∃ outs : List ToolOutput,
      outs.length = env.createAndPoll.tool_calls.length ∧
      outs.map ToolOutput.tool_call_id = env.createAndPoll.tool_calls.map ToolCall.id ∧
      AgentEffect.submitOutputs outs ∈ (process_agent_message m env).2 ∧
      countSubmits (process_agent_message m env).2 = 1 := by
  obtain ⟨outs, hloop, hlen, hids⟩ :=
    runToolLoop_ok env.googleEnv env.createAndPoll.tool_calls hok
  obtain ⟨o, os, rfl⟩ : ∃ o os, outs = o :: os := by
    cases outs with
    | nil =>
      exact absurd (List.length_eq_zero.mp hlen.symm) hne
    | cons o os => exact ⟨o, os, rfl⟩
  have hproc : process_agent_message m env =
      finishRun (env.submitAndPoll env.createAndPoll.id (o :: os)) env
        ([AgentEffect.createAssistant, AgentEffect.appendUserMessage m, AgentEffect.pollRun]
          ++ env.createAndPoll.tool_calls.map (fun c => AgentEffect.execTool c.name)
          ++ [AgentEffect.submitOutputs (o :: os), AgentEffect.pollRun]) := by
    unfold process_agent_message
    rw [if_pos hst, hloop]
    rfl
  refine ⟨o :: os, hlen, hids, ?_, ?_⟩
  · rw [hproc]
    rcases finishRun_trace (env.submitAndPoll env.createAndPoll.id (o :: os)) env
        ([AgentEffect.createAssistant, AgentEffect.appendUserMessage m, AgentEffect.pollRun]
          ++ env.createAndPoll.tool_calls.map (fun c => AgentEffect.execTool c.name)
          ++ [AgentEffect.submitOutputs (o :: os), AgentEffect.pollRun]) with htr | htr <;>
      rw [htr] <;> simp
  · rw [hproc]
    rcases finishRun_trace (env.submitAndPoll env.createAndPoll.id (o :: os)) env
        ([AgentEffect.createAssistant, AgentEffect.appendUserMessage m, AgentEffect.pollRun]
          ++ env.createAndPoll.tool_calls.map (fun c => AgentEffect.execTool c.name)
          ++ [AgentEffect.submitOutputs (o :: os), AgentEffect.pollRun]) with htr | htr <;>
      rw [htr] <;>
      simp [countSubmits, List.countP_append, List.countP_cons, isSubmitEffect,
        countP_execMap isSubmitEffect (fun _ => rfl)]

/-- C2 environment: one pending invocation of an unregistered tool (whose
execution returns `None` without raising), then a completed second run. -/
def envOneCall : AgentEnv :=
  { baseAgentEnv with
    createAndPoll := { id := "run_1", status := "requires_action",
                       tool_calls := [{ id := "call_1", name := "bogus", arguments := [] }] },
    listMessages := [{ role := "assistant", content := ["done"] }] }

/-- Witness for C2 at a concrete turn with one pending invocation. -/
theorem C2_witness :
    ∃ outs : List ToolOutput,
      outs.length = envOneCall.createAndPoll.tool_calls.length ∧
      outs.map ToolOutput.tool_call_id = envOneCall.createAndPoll.tool_calls.map ToolCall.id ∧
      AgentEffect.submitOutputs outs ∈ (process_agent_message "hi" envOneCall).2 ∧
      countSubmits (process_agent_message "hi" envOneCall).2 = 1 :=
  C2_submission_parity "hi" envOneCall rfl (List.cons_ne_nil _ _)
    (by
      intro c hc
      rw [show envOneCall.createAndPoll.tool_calls =
        [{ id := "call_1", name := "bogus", arguments := [] }] from rfl] at hc
      rw [List.mem_singleton] at hc
      subst hc
      exact ⟨PyValue.none, rfl⟩)

/-- C3 environment: the first run requires one tool call; after submission
the second run again requires action, with a fresh pending invocation. -/
def envTwoRounds : AgentEnv :=
  { baseAgentEnv with
    createAndPoll := { id := "run_1", status := "requires_action",
                       tool_calls := [{ id := "call_1", name := "bogus", arguments := [] }] },
    submitAndPoll := fun _ _ =>
      { id := "run_2", status := "requires_action",
        tool_calls := [{ id := "call_2", name := "bogus2", arguments := [] }] } }

/-- C3 counterexample: when the second run again requires tool output, the
loop does NOT execute the newly requested invocation: it executes exactly the
first round's single call, submits once, and returns the raw
"Run status: requires_action" string. -/
theorem C3_counterexample :
    (process_agent_message "hi" envTwoRounds).1 = Except.ok "Run status: requires_action" ∧
    countExecs (process_agent_message "hi" envTwoRounds).2 = 1 ∧
    countSubmits (process_agent_message "hi" envTwoRounds).2 = 1 := by
  exact ⟨rfl, by decide, by decide⟩

/-- C3 as amended: the agent loop handles exactly one round of tool use; if
after the outputs are submitted the new run again signals `requires_action`,
the loop executes none of the newly requested invocations (exactly the first
round's invocations are executed, and exactly one submission happens) and
returns the "Run status: requires_action" string. -/
theorem C3_single_round_only (m : String) (env : AgentEnv)
    (hst : env.createAndPoll.status = "requires_action")
    (hne : env.createAndPoll.tool_calls ≠ [])
    (hok : ∀ c ∈ env.createAndPoll.tool_calls,
      ∃ v, run_function c.name c.arguments env.googleEnv = Except.ok v)
    (hagain : ∀ outs, (env.submitAndPoll env.createAndPoll.id outs).status = "requires_action") :
    (process_agent_message m env).1 = Except.ok "Run status: requires_action" ∧
    countSubmits (process_agent_message m env).2 = 1 ∧
    countExecs (process_agent_message m env).2 = env.createAndPoll.tool_calls.length := by
  obtain ⟨outs, hloop, hlen, hids⟩ :=
    runToolLoop_ok env.googleEnv env.createAndPoll.tool_calls hok
  obtain ⟨o, os, rfl⟩ : ∃ o os, outs = o :: os := by
    cases outs with
    | nil =>
      exact absurd (List.length_eq_zero.mp hlen.symm) hne
    | cons o os => exact ⟨o, os, rfl⟩
  have hproc : process_agent_message m env =
      finishRun (env.submitAndPoll env.createAndPoll.id (o :: os)) env
        ([AgentEffect.createAssistant, AgentEffect.appendUserMessage m, AgentEffect.pollRun]
          ++ env.createAndPoll.tool_calls.map (fun c => AgentEffect.execTool c.name)
          ++ [AgentEffect.submitOutputs (o :: os), AgentEffect.pollRun]) := by
    unfold process_agent_message
    rw [if_pos hst, hloop]
    rfl
  have hfin : finishRun (env.submitAndPoll env.createAndPoll.id (o :: os)) env
      ([AgentEffect.createAssistant, AgentEffect.appendUserMessage m, AgentEffect.pollRun]
        ++ env.createAndPoll.tool_calls.map (fun c => AgentEffect.execTool c.name)
        ++ [AgentEffect.submitOutputs (o :: os), AgentEffect.pollRun]) =
      (Except.ok ("Run status: "
          ++ (env.submitAndPoll env.createAndPoll.id (o :: os)).status),
        [AgentEffect.createAssistant, AgentEffect.appendUserMessage m, AgentEffect.pollRun]
          ++ env.createAndPoll.tool_calls.map (fun c => AgentEffect.execTool c.name)
          ++ [AgentEffect.submitOutputs (o :: os), AgentEffect.pollRun]) := by
    unfold finishRun
    rw [if_neg (by rw [hagain]; decide)]
  rw [hproc, hfin]
  refine ⟨?_, ?_, ?_⟩
  · rw [hagain]
    rfl
  · simp [countSubmits, List.countP_append, List.countP_cons, isSubmitEffect,
      countP_execMap isSubmitEffect (fun _ => rfl)]
  · unfold countExecs
    rw [List.countP_append, List.countP_append]
    have hbase : List.countP isExecEffect
        [AgentEffect.createAssistant, AgentEffect.appendUserMessage m, AgentEffect.pollRun] = 0 := rfl
    have htail : List.countP isExecEffect
        [AgentEffect.submitOutputs (o :: os), AgentEffect.pollRun] = 0 := rfl
    have hmap := countExecs_execMap env.createAndPoll.tool_calls
    unfold countExecs at hmap
    rw [hbase, htail, hmap]
    omega

/-- Witness for C3's amended claim at the concrete two-round environment. -/
theorem C3_witness :
    (process_agent_message "hi" envTwoRounds).1 = Except.ok "Run status: requires_action" ∧
    countSubmits (process_agent_message "hi" envTwoRounds).2 = 1 ∧
    countExecs (process_agent_message "hi" envTwoRounds).2 =
      envTwoRounds.createAndPoll.tool_calls.length :=
  C3_single_round_only "hi" envTwoRounds rfl (List.cons_ne_nil _ _)
    (by
      intro c hc
      rw [show envTwoRounds.createAndPoll.tool_calls =
        [{ id := "call_1", name := "bogus", arguments := [] }] from rfl] at hc
      rw [List.mem_singleton] at hc
      subst hc
      exact ⟨PyValue.none, rfl⟩)
    (fun _ => rfl)

/-- A well-formed argument bag for `send_email` with all three required
arguments present. -/
def sendEmailArgsOk : List (String × PyValue) :=
  [("recipient", PyValue.str "a@example.com"), ("subject", PyValue.str "Hello"),
   ("body", PyValue.str "Hi there")]

/-- C5 environment: the run requests one `send_email` call with well-formed
arguments, but the credential store holds no tokens. -/
def envNoCredsSendEmail : AgentEnv :=
  { baseAgentEnv with
    createAndPoll := { id := "run_1", status := "requires_action",
                       tool_calls := [{ id := "call_1", name := "send_email",
                                        arguments := sendEmailArgsOk }] } }

/-- C5 counterexample: when the credential provider finds no stored
credentials, the executor does NOT catch the exception and return an
`ExecutionFailed` result — `run_function` raises, the exception propagates
out of `process_agent_message`, and the whole request aborts with no output
submitted. -/
theorem C5_counterexample :
    run_function "send_email" sendEmailArgsOk baseGoogleEnv =
      Except.error (PyExc.exception "No stored Google credentials found.") ∧
    ¬ isFailureResultValue (run_function "send_email" sendEmailArgsOk baseGoogleEnv) ∧
    (process_agent_message "hi" envNoCredsSendEmail).1 =
      Except.error (PyExc.exception "No stored Google credentials found.") ∧
    countSubmits (process_agent_message "hi" envNoCredsSendEmail).2 = 0 := by
  refine ⟨rfl, ?_, rfl, rfl⟩
  rintro ⟨v, hv, _⟩
  rw [show run_function "send_email" sendEmailArgsOk baseGoogleEnv =
    Except.error (PyExc.exception "No stored Google credentials found.") from rfl] at hv
  exact Except.noConfusion hv

/-- `runToolLoop` stops at the first invocation whose execution raises: with
every earlier call executing to a value and one call raising `e`, the loop
propagates `e`, having executed exactly the earlier calls and the raising
one (the calls after it never run). -/
theorem runToolLoop_error (genv : GoogleEnv) (pre : List ToolCall) (c : ToolCall)
    (post : List ToolCall) (e : PyExc)
    (hpre : ∀ c' ∈ pre, ∃ v, run_function c'.name c'.arguments genv = Except.ok v)
    (herr : run_function c.name c.arguments genv = Except.error e) :
    runToolLoop genv (pre ++ c :: post) =
      (Except.error e,
        pre.map (fun c' => AgentEffect.execTool c'.name) ++ [AgentEffect.execTool c.name]) := by
  induction pre with
  | nil =>
    rw [List.nil_append]
    unfold runToolLoop
    rw [herr]
    rfl
  | cons p rest ih =>
    obtain ⟨v, hv⟩ := hpre p (List.mem_cons_self p rest)
    have ih' := ih (fun c' hc' => hpre c' (List.mem_cons_of_mem p hc'))
    rw [List.cons_append]
    unfold runToolLoop
    rw [hv, ih']
    rfl

/-- C5 as amended: an exception raised by any tool's bound capability (the
credential provider finding no stored tokens included) is not caught
anywhere: whichever invocation of the turn raises, whatever the exception,
it propagates out of `run_function` and out of `process_agent_message`,
aborting the turn and the whole request before any output is submitted and
before any message is fetched; the invocations after the raising one never
execute. -/
theorem C5_capability_exception_aborts (m : String) (env : AgentEnv)
    (pre post : List ToolCall) (c : ToolCall) (e : PyExc)
    (hst : env.createAndPoll.status = "requires_action")
    (hcalls : env.createAndPoll.tool_calls = pre ++ c :: post)
    (hpre : ∀ c' ∈ pre, ∃ v, run_function c'.name c'.arguments env.googleEnv = Except.ok v)
    (herr : run_function c.name c.arguments env.googleEnv = Except.error e) :
    (process_agent_message m env).1 = Except.error e ∧
    countSubmits (process_agent_message m env).2 = 0 ∧
    countFetches (process_agent_message m env).2 = 0 ∧
    countExecs (process_agent_message m env).2 = pre.length + 1 := by
  have hloop := runToolLoop_error env.googleEnv pre c post e hpre herr
  have hproc : process_agent_message m env =
      (Except.error e,
        [AgentEffect.createAssistant, AgentEffect.appendUserMessage m, AgentEffect.pollRun]
          ++ (pre.map (fun c' => AgentEffect.execTool c'.name)
              ++ [AgentEffect.execTool c.name])) := by
    unfold process_agent_message
    rw [if_pos hst, hcalls, hloop]
  rw [hproc]
  refine ⟨rfl, ?_, ?_, ?_⟩
  · unfold countSubmits
    rw [List.countP_append, List.countP_append,
      countP_execMap isSubmitEffect (fun _ => rfl) pre]
    rfl
  · unfold countFetches
    rw [List.countP_append, List.countP_append,
      countP_execMap isFetchEffect (fun _ => rfl) pre]
    rfl
  · unfold countExecs
    rw [List.countP_append, List.countP_append]
    have hmap := countExecs_execMap pre
    unfold countExecs at hmap
    have hbase : List.countP isExecEffect
        [AgentEffect.createAssistant, AgentEffect.appendUserMessage m,
         AgentEffect.pollRun] = 0 := rfl
    have hone : List.countP isExecEffect [AgentEffect.execTool c.name] = 1 := rfl
    rw [hmap, hbase, hone]
    omega

/-- C5 witness environment: a two-invocation turn whose second call is
`send_email` with well-formed arguments while the credential store holds no
tokens. -/
def envNoCredsTwoCalls : AgentEnv :=
  { baseAgentEnv with
    createAndPoll := { id := "run_1", status := "requires_action",
                       tool_calls := [{ id := "call_0", name := "bogus", arguments := [] },
                                      { id := "call_1", name := "send_email",
                                        arguments := sendEmailArgsOk }] } }

/-- Witness for C5's amended claim at a concrete credential-less multi-call
turn: the first call executes, the second raises, the request aborts. -/
theorem C5_witness :
    (process_agent_message "hi" envNoCredsTwoCalls).1 =
      Except.error (PyExc.exception "No stored Google credentials found.") ∧
    countSubmits (process_agent_message "hi" envNoCredsTwoCalls).2 = 0 ∧
    countFetches (process_agent_message "hi" envNoCredsTwoCalls).2 = 0 ∧
    countExecs (process_agent_message "hi" envNoCredsTwoCalls).2 =
      [({ id := "call_0", name := "bogus", arguments := [] } : ToolCall)].length + 1 :=
  C5_capability_exception_aborts "hi" envNoCredsTwoCalls
    [{ id := "call_0", name := "bogus", arguments := [] }] []
    { id := "call_1", name := "send_email", arguments := sendEmailArgsOk }
    (PyExc.exception "No stored Google credentials found.")
    rfl rfl
    (by
      intro c' hc'
      rw [List.mem_singleton] at hc'
      subst hc'
      exact ⟨PyValue.none, rfl⟩)
    rfl

/-- C6 environment: a completed run over a thread whose newest message is
user-authored. -/
def envMixedRoles : AgentEnv :=
  { baseAgentEnv with
    listMessages := [{ role := "assistant", content := ["A"] },
                     { role := "user", content := ["B"] }] }

/-- C6 counterexample: the answer extraction takes `messages.data[-1]`
without checking the author, so on a thread whose newest message is
user-authored it returns that user text "B" rather than the most recent
assistant-authored message "A". -/
theorem C6_counterexample :
    (process_agent_message "hi" envMixedRoles).1 = Except.ok "B" ∧
    specLastAssistantText envMixedRoles.listMessages = Option.some "A" ∧
    "B" ≠ "A" := by
  exact ⟨rfl, rfl, by decide⟩

/-- C6 as amended: on a completed run the returned answer is the first
content text of the thread's most recent message regardless of its author;
an empty thread yields the fixed sentinel string "No messages found in
thread." (distinct from the empty-string answer, though itself an ordinary
string). -/
theorem C6_returns_newest_message_text (m : String) (env : AgentEnv)
    (hst : env.createAndPoll.status = "completed") :
    (env.listMessages = [] →
      (process_agent_message m env).1 = Except.ok "No messages found in thread." ∧
      "No messages found in thread." ≠ "") ∧
    (∀ lastMessage txt rest,
      env.listMessages.getLast? = Option.some lastMessage →
      lastMessage.content = txt :: rest →
      (process_agent_message m env).1 = Except.ok txt) := by
  have hnotreq : ¬ env.createAndPoll.status = "requires_action" := by
    rw [hst]; decide
  have hproc : process_agent_message m env =
      finishRun env.createAndPoll env
        [AgentEffect.createAssistant, AgentEffect.appendUserMessage m,
         AgentEffect.pollRun] := by
    unfold process_agent_message
    rw [if_neg hnotreq]
  constructor
  · intro hnil
    refine ⟨?_, by decide⟩
    rw [hproc]
    unfold finishRun
    rw [if_pos hst]
    dsimp only
    rw [hnil]
    rfl
  · intro lastMessage txt rest hlast hcontent
    rw [hproc]
    unfold finishRun
    rw [if_pos hst]
    dsimp only
    rw [hlast]
    dsimp only
    rw [hcontent]
    rfl

/-- C6 witness environment: a completed run whose newest message is
assistant-authored. -/
def envAssistantLast : AgentEnv :=
  { baseAgentEnv with
    listMessages := [{ role := "user", content := ["hello"] },
                     { role := "assistant", content := ["All done."] }] }

/-- Witness for C6's amended claim at a thread ending with an assistant
message. -/
theorem C6_witness :
    (process_agent_message "hi" envAssistantLast).1 = Except.ok "All done." :=
  (C6_returns_newest_message_text "hi" envAssistantLast rfl).2
    { role := "assistant", content := ["All done."] } "All done." [] rfl rfl

/-- C4 counterexample: for the registered tool `send_email` and an argument
bag missing the required `recipient`, the executor raises `KeyError` — it
neither returns an `InvalidArguments` failure result nor any returned value
at all. -/
theorem C4_counterexample :
    run_function "send_email" [] baseGoogleEnv =
      Except.error (PyExc.keyError "recipient") ∧
    ¬ isFailureResultValue (run_function "send_email" [] baseGoogleEnv) := by
  refine ⟨rfl, ?_⟩
  rintro ⟨v, hv, _⟩
  rw [show run_function "send_email" [] baseGoogleEnv =
    Except.error (PyExc.keyError "recipient") from rfl] at hv
  exact Except.noConfusion hv

/-- C4 as amended: for every registered tool and every argument bag missing
at least one of the tool's schema-required arguments, `run_function` raises
`KeyError` for the first missing required argument in evaluation order — no
validation happens and no `InvalidArguments` result is returned — and the
bound capability is never invoked (the outcome is the same for every
capability environment). -/
theorem C4_missing_required_raises (name : String) (args : List (String × PyValue))
    (hname : name ∈ toolNames)
    (hmiss : ∃ k, k ∈ requiredArgsOf name ∧ lookupKey args k = Option.none) :
    ∃ k, k ∈ requiredArgsOf name ∧ lookupKey args k = Option.none ∧
      ∀ env : GoogleEnv, run_function name args env = Except.error (PyExc.keyError k) := by
  have hnames : toolNames = ["schedule_meeting", "send_email", "read_emails",
      "read_calendar", "edit_calendar"] := rfl
  rw [hnames] at hname
  fin_cases hname
  · -- schedule_meeting
    cases h1 : lookupKey args "meeting_title" with
    | none =>
      refine ⟨"meeting_title", by decide, h1, fun env => ?_⟩
      unfold run_function
      rw [if_pos rfl]
      rw [show dictGet args "meeting_title" = Except.error (PyExc.keyError "meeting_title") by
        unfold dictGet; rw [h1]]
      rfl
    | some v1 =>
      cases h2 : lookupKey args "start_time" with
      | none =>
        refine ⟨"start_time", by decide, h2, fun env => ?_⟩
        unfold run_function
        rw [if_pos rfl]
        rw [show dictGet args "meeting_title" = Except.ok v1 by unfold dictGet; rw [h1]]
        rw [exbind_ok]
        rw [show dictGet args "start_time" = Except.error (PyExc.keyError "start_time") by
          unfold dictGet; rw [h2]]
        rfl
      | some v2 =>
        cases h3 : lookupKey args "end_time" with
        | none =>
          refine ⟨"end_time", by decide, h3, fun env => ?_⟩
          unfold run_function
          rw [if_pos rfl]
          rw [show dictGet args "meeting_title" = Except.ok v1 by unfold dictGet; rw [h1]]
          rw [exbind_ok]
          rw [show dictGet args "start_time" = Except.ok v2 by unfold dictGet; rw [h2]]
          rw [exbind_ok]
          rw [show dictGet args "end_time" = Except.error (PyExc.keyError "end_time") by
            unfold dictGet; rw [h3]]
          rfl
        | some v3 =>
          exfalso
          obtain ⟨k, hk, hkn⟩ := hmiss
          rw [show requiredArgsOf "schedule_meeting" =
            ["meeting_title", "start_time", "end_time"] by decide] at hk
          fin_cases hk
          · rw [h1] at hkn; exact Option.noConfusion hkn
          · rw [h2] at hkn; exact Option.noConfusion hkn
          · rw [h3] at hkn; exact Option.noConfusion hkn
  · -- send_email
    cases h1 : lookupKey args "recipient" with
    | none =>
      refine ⟨"recipient", by decide, h1, fun env => ?_⟩
      unfold run_function
      rw [if_neg (by decide), if_pos rfl]
      rw [show dictGet args "recipient" = Except.error (PyExc.keyError "recipient") by
        unfold dictGet; rw [h1]]
      rfl
    | some v1 =>
      cases h2 : lookupKey args "subject" with
      | none =>
        refine ⟨"subject", by decide, h2, fun env => ?_⟩
        unfold run_function
        rw [if_neg (by decide), if_pos rfl]
        rw [show dictGet args "recipient" = Except.ok v1 by unfold dictGet; rw [h1]]
        rw [exbind_ok]
        rw [show dictGet args "subject" = Except.error (PyExc.keyError "subject") by
          unfold dictGet; rw [h2]]
        rfl
      | some v2 =>
        cases h3 : lookupKey args "body" with
        | none =>
          refine ⟨"body", by decide, h3, fun env => ?_⟩
          unfold run_function
          rw [if_neg (by decide), if_pos rfl]
          rw [show dictGet args "recipient" = Except.ok v1 by unfold dictGet; rw [h1]]
          rw [exbind_ok]
          rw [show dictGet args "subject" = Except.ok v2 by unfold dictGet; rw [h2]]
          rw [exbind_ok]
          rw [show dictGet args "body" = Except.error (PyExc.keyError "body") by
            unfold dictGet; rw [h3]]
          rfl
        | some v3 =>
          exfalso
          obtain ⟨k, hk, hkn⟩ := hmiss
          rw [show requiredArgsOf "send_email" = ["recipient", "subject", "body"] by decide] at hk
          fin_cases hk
          · rw [h1] at hkn; exact Option.noConfusion hkn
          · rw [h2] at hkn; exact Option.noConfusion hkn
          · rw [h3] at hkn; exact Option.noConfusion hkn
  · -- read_emails: no required arguments, so the hypothesis is vacuous
    obtain ⟨k, hk, _⟩ := hmiss
    rw [show requiredArgsOf "read_emails" = [] by decide] at hk
    exact absurd hk (List.not_mem_nil k)
  · -- read_calendar: no required arguments, so the hypothesis is vacuous
    obtain ⟨k, hk, _⟩ := hmiss
    rw [show requiredArgsOf "read_calendar" = [] by decide] at hk
    exact absurd hk (List.not_mem_nil k)
  · -- edit_calendar
    cases h1 : lookupKey args "event_id" with
    | none =>
      refine ⟨"event_id", by decide, h1, fun env => ?_⟩
      unfold run_function
      rw [if_neg (by decide), if_neg (by decide), if_neg (by decide), if_neg (by decide),
        if_pos rfl]
      rw [show dictGet args "event_id" = Except.error (PyExc.keyError "event_id") by
        unfold dictGet; rw [h1]]
      rfl
    | some v1 =>
      cases h2 : lookupKey args "updates" with
      | none =>
        refine ⟨"updates", by decide, h2, fun env => ?_⟩
        unfold run_function
        rw [if_neg (by decide), if_neg (by decide), if_neg (by decide), if_neg (by decide),
          if_pos rfl]
        rw [show dictGet args "event_id" = Except.ok v1 by unfold dictGet; rw [h1]]
        rw [exbind_ok]
        rw [show dictGet args "updates" = Except.error (PyExc.keyError "updates") by
          unfold dictGet; rw [h2]]
        rfl
      | some v2 =>
        exfalso
        obtain ⟨k, hk, hkn⟩ := hmiss
        rw [show requiredArgsOf "edit_calendar" = ["event_id", "updates"] by decide] at hk
        fin_cases hk
        · rw [h1] at hkn; exact Option.noConfusion hkn
        · rw [h2] at hkn; exact Option.noConfusion hkn

/-- Witness for C4's amended claim: `send_email` with an empty argument bag
raises `KeyError("recipient")` in every capability environment. -/
theorem C4_witness :
    ∃ k, k ∈ requiredArgsOf "send_email" ∧ lookupKey [] k = Option.none ∧
      ∀ env : GoogleEnv, run_function "send_email" [] env = Except.error (PyExc.keyError k) :=
  C4_missing_required_raises "send_email" [] (by decide) ⟨"recipient", by decide, rfl⟩

end ModalApp
